import Mathlib

/-!
# HiKey960 board driver (`system/dev/board/hikey960/hikey960.c`)

A shallow embedding of the board driver: the GPIO bank registry and its range
lookup, the three GPIO entry points, the USB mode-switch entry point, the
protocol dispatcher, and the bind / release life cycle.

Conventions.

* `uint32_t` values are natural numbers; the one place where the C code adds two
  of them (`gpio_start + gpio_count`) is reduced modulo `2 ^ 32` explicitly.
* Calls that leave the driver (DDK helpers, sibling translation units, the
  PL061 operation table) are answered by an `Env` record, and every such call is
  appended to `Sys.log`, so that "is called", "is never called" and "is called
  once, last" are statements about that log.
* `zxlogf` diagnostics have no effect on anything modelled and are omitted.
-/

namespace Hikey960

/-! ## Status codes and enumerations -/

/-- Status type `zx_status_t` (a signed 32-bit integer in C). -/
abbrev zx_status_t := Int

def ZX_OK : zx_status_t := 0
def ZX_ERR_NOT_SUPPORTED : zx_status_t := -2
def ZX_ERR_NO_MEMORY : zx_status_t := -4
def ZX_ERR_INVALID_ARGS : zx_status_t := -10

/-- The USB role values of `usb_mode_t`. -/
inductive usb_mode_t where
  | USB_MODE_NONE
  | USB_MODE_HOST
  | USB_MODE_PERIPHERAL
  | USB_MODE_OTG
  deriving DecidableEq, Repr

open usb_mode_t

/-- A physical register window: one of the three board windows mapped by
`hikey960_bind`, or the window owned by a GPIO bank. -/
inductive Region where
  | usb3otg_bc
  | peri_crg
  | pctrl
  | bank (id : Nat)
  deriving DecidableEq, Repr

/-- An `io_buffer_t`: `vmo_handle = none` is the zeroed buffer
(`ZX_HANDLE_INVALID`), `some r` a buffer that maps window `r`. -/
structure io_buffer_t where
  vmo_handle : Option Region
  deriving DecidableEq, Repr

/-- A GPIO bank `pl061_gpios_t`: its register window and the logical index
range `gpio_start .. gpio_start + gpio_count` it serves (both `uint32_t`). -/
structure pl061_gpios_t where
  buffer : io_buffer_t
  gpio_start : Nat
  gpio_count : Nat
  deriving DecidableEq, Repr

/-- The operation tables a protocol struct can point at. -/
inductive ops_ref where
  | null
  | gpio_ops
  | usb_mode_switch_ops
  | platform_bus_ops
  deriving DecidableEq, Repr

/-- A protocol struct: operation table plus context pointer (`ctx = true` is
the back pointer to the driver instance, `false` is NULL). -/
structure protocol_t where
  ops : ops_ref
  ctx : Bool
  deriving DecidableEq, Repr

/-- The driver instance `hikey960_t`, with the fields `hikey960.c` touches. -/
structure hikey960_t where
  pbus : protocol_t
  gpios : List pl061_gpios_t
  usb_mode : usb_mode_t
  usb3otg_bc : io_buffer_t
  peri_crg : io_buffer_t
  pctrl : io_buffer_t
  gpio : protocol_t
  usb_mode_switch : protocol_t
  deriving DecidableEq, Repr

/-! ## Calls leaving the driver -/

/-- One call made by the driver to a collaborator. The calls that receive the
driver instance (`pbus_set_interface` through `intf.ctx`, `hikey960_add_devices`
and `hikey960_usb_init` through `bus`) record its content at the time of the
call. -/
inductive Event where
  | device_get_protocol
  | io_buffer_init_physical (r : Region)
  | io_buffer_release (buffer : io_buffer_t)
  | device_add
  | pbus_set_interface (bus : hikey960_t)
  | hi3360_add_gpios
  | hikey960_add_devices (bus : hikey960_t)
  | hikey960_usb_init (bus : hikey960_t)
  | hikey960_usb_set_mode (mode : usb_mode_t)
  | pl061_config (gpios : pl061_gpios_t) (index flags : Nat)
  | pl061_read (gpios : pl061_gpios_t) (index : Nat)
  | pl061_write (gpios : pl061_gpios_t) (index value : Nat)
  deriving DecidableEq, Repr

/-- What lies outside the driver instance: the windows currently mapped by the
platform, and the calls made so far, oldest first. -/
structure Sys where
  mapped : List Region
  log : List Event
  deriving DecidableEq, Repr

/-- A diagnostic line written with `zxlogf`: it changes nothing that is
modelled. -/
def zxlogf (s : Sys) : Sys := s

/-- Append a call to the log. -/
def Sys.record (s : Sys) (e : Event) : Sys :=
  { s with log := s.log ++ [e] }

/-- The PL061 operation table `pl061_proto_ops` (declared in
`gpio/arm-pl061/pl061.h`): each entry gets the bank, the index and the
argument. `read` also gets the current content of `*out_value` and returns
its new content. -/
structure gpio_protocol_ops_t where
  config : pl061_gpios_t → Nat → Nat → zx_status_t
  read : pl061_gpios_t → Nat → Nat → zx_status_t × Nat
  write : pl061_gpios_t → Nat → Nat → zx_status_t

/-- Answers of the collaborators of `hikey960.c`. -/
structure Env where
  /-- Whether `calloc` returns a driver instance. -/
  calloc : Bool
  /-- Status of `device_get_protocol(parent, ZX_PROTOCOL_PLATFORM_BUS, ..)`. -/
  device_get_protocol : zx_status_t
  /-- Status of mapping a window with `io_buffer_init_physical`. -/
  io_buffer_init_physical : Region → zx_status_t
  /-- Status of `device_add`. -/
  device_add : zx_status_t
  /-- Bank discovery `hi3360_add_gpios(&bus->gpios)`: status and the bank list
  it leaves behind. -/
  hi3360_add_gpios : List pl061_gpios_t → zx_status_t × List pl061_gpios_t
  /-- Status of `hikey960_add_devices(bus)`. -/
  hikey960_add_devices : hikey960_t → zx_status_t
  /-- Status of `hikey960_usb_init(bus)`. -/
  hikey960_usb_init : hikey960_t → zx_status_t
  /-- The hardware mode-switch procedure `hikey960_usb_set_mode(bus, mode)` of
  `hikey960-usb.c`: status and the driver instance it leaves behind. -/
  hikey960_usb_set_mode : hikey960_t → usb_mode_t → zx_status_t × hikey960_t
  /-- The PL061 operation table. -/
  pl061_proto_ops : gpio_protocol_ops_t

/-! ## GPIO bank lookup and the GPIO entry points -/

/-- The loop condition of `find_gpio`:
`index >= gpios->gpio_start && index < gpios->gpio_start + gpios->gpio_count`,
the sum being a `uint32_t` sum. -/
def gpio_match (gpios : pl061_gpios_t) (index : Nat) : Bool :=
  decide (index ≥ gpios.gpio_start) &&
    decide (index < (gpios.gpio_start + gpios.gpio_count) % 2 ^ 32)

/-- The traversal `list_for_every_entry(&bus->gpios, ..)` of `find_gpio`: the
first bank, in list order, whose condition holds; `none` is NULL. -/
def find_gpio_loop (index : Nat) : List pl061_gpios_t → Option pl061_gpios_t
  | [] => none
  | gpios :: rest =>
    if gpio_match gpios index then some gpios else find_gpio_loop index rest

/-- Source function `find_gpio(bus, index)`. -/
def find_gpio (bus : hikey960_t) (index : Nat) : Option pl061_gpios_t :=
  find_gpio_loop index bus.gpios

/-- Source function `hi3660_gpio_config(ctx, index, flags)`. -/
def hi3660_gpio_config (env : Env) (s : Sys) (bus : hikey960_t) (index flags : Nat) :
    zx_status_t × Sys :=
  match find_gpio bus index with
  | none => (ZX_ERR_INVALID_ARGS, s)
  | some gpios =>
    (env.pl061_proto_ops.config gpios index flags, s.record (Event.pl061_config gpios index flags))

/-- Source function `hi3660_gpio_read(ctx, index, out_value)`; the last
component of the result is the content of `*out_value` on return. -/
def hi3660_gpio_read (env : Env) (s : Sys) (bus : hikey960_t) (index out_value : Nat) :
    zx_status_t × Sys × Nat :=
  match find_gpio bus index with
  | none => (ZX_ERR_INVALID_ARGS, s, out_value)
  | some gpios =>
    let r := env.pl061_proto_ops.read gpios index out_value
    (r.1, s.record (Event.pl061_read gpios index), r.2)

/-- Source function `hi3660_gpio_write(ctx, index, value)`. -/
def hi3660_gpio_write (env : Env) (s : Sys) (bus : hikey960_t) (index value : Nat) :
    zx_status_t × Sys :=
  match find_gpio bus index with
  | none => (ZX_ERR_INVALID_ARGS, s)
  | some gpios =>
    (env.pl061_proto_ops.write gpios index value, s.record (Event.pl061_write gpios index value))

/-! ## USB mode switch and protocol dispatch -/

/-- The call `hikey960_usb_set_mode(bus, mode)`: recorded in the log and
answered by the environment. -/
def call_usb_set_mode (env : Env) (s : Sys) (bus : hikey960_t) (mode : usb_mode_t) :
    zx_status_t × Sys × hikey960_t :=
  let r := env.hikey960_usb_set_mode bus mode
  (r.1, s.record (Event.hikey960_usb_set_mode mode), r.2)

/-- Source function `hikey960_get_initial_mode(ctx, out_mode)`: status and the
content of `*out_mode` on return. -/
def hikey960_get_initial_mode : zx_status_t × usb_mode_t :=
  (ZX_OK, USB_MODE_HOST)

/-- Source function `hikey960_set_mode(ctx, mode)`. -/
def hikey960_set_mode (env : Env) (s : Sys) (bus : hikey960_t) (mode : usb_mode_t) :
    zx_status_t × Sys × hikey960_t :=
  if mode = USB_MODE_OTG then (ZX_ERR_NOT_SUPPORTED, s, bus)
  else call_usb_set_mode env s bus mode

/-- The call `hikey960_set_mode(ctx, mode)` made `n` times in a row; the
component returned is the state after the last call. -/
def set_mode_repeat (env : Env) (mode : usb_mode_t) : Nat → Sys × hikey960_t → Sys × hikey960_t
  | 0, st => st
  | n + 1, st => set_mode_repeat env mode n (hikey960_set_mode env st.1 st.2 mode).2

/-- Modelled from the spec: the body of `hikey960_usb_set_mode`, which is
defined in `hikey960-usb.c`, outside `hikey960.c`. Section 4.3: the
hardware is switched, "and, only on its success, updates state to requested and
returns success; on hardware failure, state is left unchanged and the failure
is propagated". `hw` is the status the hardware switch ends with. -/
def hikey960_usb_set_mode (hw : usb_mode_t → zx_status_t) (bus : hikey960_t)
    (mode : usb_mode_t) : zx_status_t × hikey960_t :=
  if hw mode = ZX_OK then (ZX_OK, { bus with usb_mode := mode }) else (hw mode, bus)

/-- The protocol identifiers `ZX_PROTOCOL_GPIO` and
`ZX_PROTOCOL_USB_MODE_SWITCH`; their values come from a DDK header. -/
structure protodefs where
  ZX_PROTOCOL_GPIO : Nat
  ZX_PROTOCOL_USB_MODE_SWITCH : Nat

/-- Source function `hikey960_get_protocol(ctx, proto_id, out)`: status and the
content of `*out` on return. -/
def hikey960_get_protocol (ids : protodefs) (bus : hikey960_t) (proto_id : Nat)
    (out : protocol_t) : zx_status_t × protocol_t :=
  if proto_id = ids.ZX_PROTOCOL_GPIO then (ZX_OK, bus.gpio)
  else if proto_id = ids.ZX_PROTOCOL_USB_MODE_SWITCH then (ZX_OK, bus.usb_mode_switch)
  else (ZX_ERR_NOT_SUPPORTED, out)

/-! ## Register windows -/

/-- The three board windows, in the order `hikey960_bind` maps them. -/
def boardRegions : List Region :=
  [Region.usb3otg_bc, Region.peri_crg, Region.pctrl]

/-- Modelled from the spec: `io_buffer_init_physical`, which is defined in the
DDK library, outside `hikey960.c`. Section 4.1: a descriptor is mapped or the
mapping facility reports an error; a failed mapping leaves the buffer as it
was. -/
def io_buffer_init_physical (env : Env) (s : Sys) (buffer : io_buffer_t) (r : Region) :
    zx_status_t × Sys × io_buffer_t :=
  let s1 := s.record (Event.io_buffer_init_physical r)
  if env.io_buffer_init_physical r = ZX_OK then
    (ZX_OK, { s1 with mapped := s1.mapped ++ [r] }, { vmo_handle := some r })
  else (env.io_buffer_init_physical r, s1, buffer)

/-- Modelled from the spec: `io_buffer_release`, which is defined in the DDK
library, outside `hikey960.c`. Section 4.1: releasing unmaps the window and is
a "no-op on absent entries". The call itself is always recorded. -/
def io_buffer_release (s : Sys) (buffer : io_buffer_t) : Sys × io_buffer_t :=
  let s1 := s.record (Event.io_buffer_release buffer)
  match buffer.vmo_handle with
  | none => (s1, buffer)
  | some r => ({ s1 with mapped := s1.mapped.filter (fun x => decide (x ≠ r)) },
               { vmo_handle := none })

/-- The windows a log shows as attempted by `io_buffer_init_physical`. -/
def attempted : List Event → List Region
  | [] => []
  | Event.io_buffer_init_physical r :: l => r :: attempted l
  | _ :: l => attempted l

/-- The windows a log shows as unmapped: the `io_buffer_release` calls on a
buffer that held a mapping. -/
def unmapped : List Event → List Region
  | [] => []
  | Event.io_buffer_release { vmo_handle := some r } :: l => r :: unmapped l
  | _ :: l => unmapped l

/-- The number of `io_buffer_release` calls in a log. -/
def releaseCalls : List Event → Nat
  | [] => 0
  | Event.io_buffer_release _ :: l => releaseCalls l + 1
  | _ :: l => releaseCalls l

/-- The steps of `hikey960_bind` that follow the mapping of the windows:
registration with the parent and everything after it. -/
def Event.afterMapping : Event → Bool
  | Event.device_add => true
  | Event.pbus_set_interface _ => true
  | Event.hi3360_add_gpios => true
  | Event.hikey960_add_devices _ => true
  | Event.hikey960_usb_init _ => true
  | Event.hikey960_usb_set_mode _ => true
  | _ => false

/-! ## Release and bind -/

/-- The loop of `hikey960_release`:
`while ((gpios = list_remove_head_type(&bus->gpios, ..)) != NULL)` releases the
head bank's buffer and frees the bank; the list returned is what is left. -/
def release_gpios (s : Sys) : List pl061_gpios_t → Sys × List pl061_gpios_t
  | [] => (s, [])
  | gpios :: rest => release_gpios (io_buffer_release s gpios.buffer).1 rest

/-- Source function `hikey960_release(ctx)`. The driver instance returned is
the content of `*bus` at the point where `free(bus)` is reached. -/
def hikey960_release (s : Sys) (bus : hikey960_t) : Sys × hikey960_t :=
  let r0 := release_gpios s bus.gpios
  let r1 := io_buffer_release r0.1 bus.usb3otg_bc
  let r2 := io_buffer_release r1.1 bus.peri_crg
  let r3 := io_buffer_release r2.1 bus.pctrl
  (r3.1, { bus with gpios := r0.2, usb3otg_bc := r1.2, peri_crg := r2.2, pctrl := r3.2 })

/-- The driver instance right after `calloc(1, sizeof(hikey960_t))`. -/
def zeroed : hikey960_t :=
  { pbus := { ops := ops_ref.null, ctx := false }
    gpios := []
    usb_mode := USB_MODE_NONE
    usb3otg_bc := { vmo_handle := none }
    peri_crg := { vmo_handle := none }
    pctrl := { vmo_handle := none }
    gpio := { ops := ops_ref.null, ctx := false }
    usb_mode_switch := { ops := ops_ref.null, ctx := false } }

/-- The label `fail:` of `hikey960_bind`: release everything and return
`status`; the driver instance is gone. -/
def bind_fail (s : Sys) (bus : hikey960_t) (status : zx_status_t) :
    zx_status_t × Sys × Option hikey960_t :=
  (status, (hikey960_release (zxlogf s) bus).1, none)

/-- The part of `hikey960_bind` after a successful `device_add`. -/
def bind_registered (env : Env) (s : Sys) (bus : hikey960_t) :
    zx_status_t × Sys × Option hikey960_t :=
  let bus1 := { bus with gpio := { ops := ops_ref.gpio_ops, ctx := true },
                         usb_mode_switch := { ops := ops_ref.usb_mode_switch_ops, ctx := true } }
  let s1 := s.record (Event.pbus_set_interface bus1)
  let g := env.hi3360_add_gpios bus1.gpios
  let s2 := s1.record Event.hi3360_add_gpios
  let s3 : Sys := { s2 with mapped := s2.mapped ++ g.2.filterMap (fun b => b.buffer.vmo_handle) }
  let bus2 := { bus1 with gpios := g.2 }
  let s4 := if g.1 ≠ ZX_OK then zxlogf s3 else s3
  let s5 := s4.record (Event.hikey960_add_devices bus2)
  let s6 := if env.hikey960_add_devices bus2 ≠ ZX_OK then zxlogf s5 else s5
  let s7 := s6.record (Event.hikey960_usb_init bus2)
  let s8 := if env.hikey960_usb_init bus2 ≠ ZX_OK then zxlogf s7 else s7
  let m := call_usb_set_mode env s8 bus2 USB_MODE_NONE
  (ZX_OK, m.2.1, some m.2.2)

/-- Source function `hikey960_bind(ctx, parent)`, started in the state `s`.
The last component is the driver instance handed to the parent, `none` when it
was freed or never allocated. -/
def hikey960_bind (env : Env) (s : Sys) : zx_status_t × Sys × Option hikey960_t :=
  if env.calloc = false then (ZX_ERR_NO_MEMORY, s, none)
  else
    let s0 := s.record Event.device_get_protocol
    if env.device_get_protocol ≠ ZX_OK then (ZX_ERR_NOT_SUPPORTED, s0, none)
    else
      let bus0 := { zeroed with pbus := { ops := ops_ref.platform_bus_ops, ctx := true },
                                gpios := [], usb_mode := USB_MODE_NONE }
      let m1 := io_buffer_init_physical env s0 bus0.usb3otg_bc Region.usb3otg_bc
      let bus1 := { bus0 with usb3otg_bc := m1.2.2 }
      if m1.1 ≠ ZX_OK then bind_fail m1.2.1 bus1 m1.1
      else
        let m2 := io_buffer_init_physical env m1.2.1 bus1.peri_crg Region.peri_crg
        let bus2 := { bus1 with peri_crg := m2.2.2 }
        if m2.1 ≠ ZX_OK then bind_fail m2.2.1 bus2 m2.1
        else
          let m3 := io_buffer_init_physical env m2.2.1 bus2.pctrl Region.pctrl
          let bus3 := { bus2 with pctrl := m3.2.2 }
          if m3.1 ≠ ZX_OK then bind_fail m3.2.1 bus3 m3.1
          else
            let s4 := m3.2.1.record Event.device_add
            if env.device_add ≠ ZX_OK then bind_fail s4 bus3 env.device_add
            else bind_registered env s4 bus3

/-! ## Specification-side notions -/

/-- Mathematical membership of `index` in the bank's range
`[gpio_start, gpio_start + gpio_count)`. -/
def in_range (gpios : pl061_gpios_t) (index : Nat) : Prop :=
  gpios.gpio_start ≤ index ∧ index < gpios.gpio_start + gpios.gpio_count

instance (gpios : pl061_gpios_t) (index : Nat) : Decidable (in_range gpios index) := by
  unfold in_range
  exact inferInstance

/-- Two banks serve no common index. -/
def ranges_disjoint (a b : pl061_gpios_t) : Prop :=
  ∀ i, ¬ (in_range a i ∧ in_range b i)

/-- A bank at the top of the 32-bit index space: `[0xFFFFFFF8, 2 ^ 32)`. -/
def wrapBank : pl061_gpios_t :=
  { buffer := { vmo_handle := some (Region.bank 0) }, gpio_start := 0xFFFFFFF8, gpio_count := 8 }

/-- A driver instance whose registry holds `wrapBank` only. -/
def wrapBus : hikey960_t :=
  { zeroed with gpios := [wrapBank] }

/-- Bank `A = [0, 8)`. -/
def bankA : pl061_gpios_t :=
  { buffer := { vmo_handle := some (Region.bank 0) }, gpio_start := 0, gpio_count := 8 }

/-- Bank `B = [8, 16)`. -/
def bankB : pl061_gpios_t :=
  { buffer := { vmo_handle := some (Region.bank 1) }, gpio_start := 8, gpio_count := 8 }

/-- A driver instance with `A` and `B` registered, in that order. -/
def busAB : hikey960_t :=
  { zeroed with gpios := [bankA, bankB] }

/-- An environment in which every collaborator succeeds, the hardware mode
switch follows `hikey960_usb_set_mode`, discovery registers `A` and `B`, and a
PL061 read stores 1. -/
def okEnv : Env :=
  { calloc := true
    device_get_protocol := ZX_OK
    io_buffer_init_physical := fun _ => ZX_OK
    device_add := ZX_OK
    hi3360_add_gpios := fun l => (ZX_OK, l ++ [bankA, bankB])
    hikey960_add_devices := fun _ => ZX_OK
    hikey960_usb_init := fun _ => ZX_OK
    hikey960_usb_set_mode := hikey960_usb_set_mode (fun _ => ZX_OK)
    pl061_proto_ops :=
      { config := fun _ _ _ => ZX_OK
        read := fun _ _ _ => (ZX_OK, 1)
        write := fun _ _ _ => ZX_OK } }

/-- An environment like `okEnv` whose hardware mode switch fails with
`ZX_ERR_NOT_SUPPORTED`. -/
def usbFailEnv : Env :=
  { okEnv with hikey960_usb_set_mode := hikey960_usb_set_mode (fun _ => ZX_ERR_NOT_SUPPORTED) }

/-- A driver instance whose USB mode is PERIPHERAL. -/
def busPeripheral : hikey960_t :=
  { zeroed with usb_mode := USB_MODE_PERIPHERAL }

/-- Protocol identifiers used for the examples. -/
def exampleIds : protodefs :=
  { ZX_PROTOCOL_GPIO := 1, ZX_PROTOCOL_USB_MODE_SWITCH := 2 }

/-- An environment like `okEnv` in which mapping the third window, `pctrl`,
fails with `ZX_ERR_NO_MEMORY`. -/
def pctrlFailEnv : Env :=
  { okEnv with
    io_buffer_init_physical := fun r => if r = Region.pctrl then ZX_ERR_NO_MEMORY else ZX_OK }

/-- An environment like `okEnv` in which `device_add` fails with
`ZX_ERR_NO_MEMORY`. -/
def deviceAddFailEnv : Env :=
  { okEnv with device_add := ZX_ERR_NO_MEMORY }

/-- An environment in which bind gets as far as `device_add` and every later
collaborator fails: discovery registers nothing, child addition, USB
initialisation and the hardware mode switch all report an error. -/
def lateFailEnv : Env :=
  { okEnv with
    hi3360_add_gpios := fun l => (ZX_ERR_NO_MEMORY, l)
    hikey960_add_devices := fun _ => ZX_ERR_NO_MEMORY
    hikey960_usb_init := fun _ => ZX_ERR_NOT_SUPPORTED
    hikey960_usb_set_mode := hikey960_usb_set_mode (fun _ => ZX_ERR_NOT_SUPPORTED) }

/-- A bank whose window is `Region.bank id`, serving eight indices from
`8 * id`. -/
def bankOf (id : Nat) : pl061_gpios_t :=
  { buffer := { vmo_handle := some (Region.bank id) }, gpio_start := 8 * id, gpio_count := 8 }

/-- A bound driver instance: the three board windows mapped, the capabilities
set, and the given banks registered. -/
def boundBus (banks : List pl061_gpios_t) : hikey960_t :=
  { pbus := { ops := ops_ref.platform_bus_ops, ctx := true }
    gpios := banks
    usb_mode := USB_MODE_NONE
    usb3otg_bc := { vmo_handle := some Region.usb3otg_bc }
    peri_crg := { vmo_handle := some Region.peri_crg }
    pctrl := { vmo_handle := some Region.pctrl }
    gpio := { ops := ops_ref.gpio_ops, ctx := true }
    usb_mode_switch := { ops := ops_ref.usb_mode_switch_ops, ctx := true } }

/-- The state in which the windows of `boundBus [bankOf 0, bankOf 1, bankOf 2]`
are mapped. -/
def boundSys : Sys :=
  { mapped := [Region.usb3otg_bc, Region.peri_crg, Region.pctrl, Region.bank 0, Region.bank 1,
      Region.bank 2]
    log := [] }

/-- The state before anything is mapped or called. -/
def Sys.init : Sys :=
  { mapped := [], log := [] }

/-! ## Lookup lemmas -/

theorem gpio_match_in_range (b : pl061_gpios_t) (index : Nat)
    (h : gpio_match b index = true) : in_range b index := by
  unfold gpio_match at h
  simp only [Bool.and_eq_true, decide_eq_true_eq] at h
  have hle : (b.gpio_start + b.gpio_count) % 2 ^ 32 ≤ b.gpio_start + b.gpio_count :=
    Nat.mod_le _ _
  exact ⟨h.1, lt_of_lt_of_le h.2 hle⟩

theorem gpio_match_of_in_range (b : pl061_gpios_t) (index : Nat)
    (hfit : b.gpio_start + b.gpio_count < 2 ^ 32) (h : in_range b index) :
    gpio_match b index = true := by
  unfold gpio_match
  simp only [Bool.and_eq_true, decide_eq_true_eq]
  rw [Nat.mod_eq_of_lt hfit]
  exact h

theorem gpio_match_false_of_wrap (b : pl061_gpios_t) (index : Nat)
    (hc : b.gpio_count < 2 ^ 32) (hwrap : 2 ^ 32 ≤ b.gpio_start + b.gpio_count) :
    gpio_match b index = false := by
  unfold gpio_match
  have hmod : (b.gpio_start + b.gpio_count) % 2 ^ 32 < b.gpio_start := by omega
  cases hm : decide (index ≥ b.gpio_start) with
  | false => simp
  | true =>
    have h1 : b.gpio_start ≤ index := by simpa using hm
    have h2 : ¬ index < (b.gpio_start + b.gpio_count) % 2 ^ 32 := by omega
    rw [Bool.true_and, decide_eq_false_iff_not]
    exact h2

theorem find_gpio_loop_some (index : Nat) (l : List pl061_gpios_t) (g : pl061_gpios_t)
    (h : find_gpio_loop index l = some g) : g ∈ l ∧ gpio_match g index = true := by
  induction l with
  | nil => simp [find_gpio_loop] at h
  | cons b rest ih =>
    unfold find_gpio_loop at h
    by_cases hb : gpio_match b index = true
    · rw [if_pos hb] at h
      cases h
      exact ⟨List.mem_cons_self _ _, hb⟩
    · rw [if_neg hb] at h
      exact ⟨List.mem_cons_of_mem _ (ih h).1, (ih h).2⟩

theorem find_gpio_loop_none (index : Nat) (l : List pl061_gpios_t)
    (h : ∀ b ∈ l, gpio_match b index = false) : find_gpio_loop index l = none := by
  induction l with
  | nil => rfl
  | cons b rest ih =>
    unfold find_gpio_loop
    have hb : gpio_match b index = false := h b (List.mem_cons_self _ _)
    simp only [hb, Bool.false_eq_true, if_false]
    exact ih (fun c hc => h c (List.mem_cons_of_mem _ hc))

theorem find_gpio_loop_isSome (index : Nat) (l : List pl061_gpios_t) (b : pl061_gpios_t)
    (hb : b ∈ l) (hm : gpio_match b index = true) :
    ∃ g, find_gpio_loop index l = some g := by
  cases hf : find_gpio_loop index l with
  | some g => exact ⟨g, rfl⟩
  | none =>
    exfalso
    induction l with
    | nil => cases hb
    | cons c rest ih =>
      unfold find_gpio_loop at hf
      by_cases hc : gpio_match c index = true
      · rw [if_pos hc] at hf
        cases hf
      · rw [if_neg hc] at hf
        rcases List.mem_cons.mp hb with rfl | hmem
        · exact hc hm
        · exact ih hmem hf

theorem find_gpio_outside (bus : hikey960_t) (index : Nat)
    (h : ∀ b ∈ bus.gpios, ¬ in_range b index) : find_gpio bus index = none := by
  apply find_gpio_loop_none
  intro b hb
  cases hm : gpio_match b index with
  | false => rfl
  | true => exact absurd (gpio_match_in_range b index hm) (h b hb)

theorem find_gpio_inside (bus : hikey960_t) (index : Nat) (b : pl061_gpios_t)
    (hb : b ∈ bus.gpios) (hin : in_range b index)
    (hfit : b.gpio_start + b.gpio_count < 2 ^ 32) :
    ∃ g, find_gpio bus index = some g ∧ g ∈ bus.gpios ∧ in_range g index := by
  obtain ⟨g, hg⟩ := find_gpio_loop_isSome index bus.gpios b hb
    (gpio_match_of_in_range b index hfit hin)
  have hs := find_gpio_loop_some index bus.gpios g hg
  exact ⟨g, hg, hs.1, gpio_match_in_range g index hs.2⟩

theorem ranges_disjoint_symm : Symmetric ranges_disjoint := by
  intro a b h i hi
  exact h i ⟨hi.2, hi.1⟩

/-! ## The bank lookup -/

/-- C1, as amended: in a registry whose ranges are pairwise disjoint, a bank
whose range contains `index` and whose `gpio_start + gpio_count` stays below
`2 ^ 32` is what `find_gpio` returns, and it is the only registered bank whose
range contains `index`; when `index` lies in no registered range, `find_gpio`
returns NULL. -/
theorem find_gpio_unique_bank (bus : hikey960_t) (index : Nat)
    (hdisj : bus.gpios.Pairwise ranges_disjoint) :
    (∀ b ∈ bus.gpios, in_range b index → b.gpio_start + b.gpio_count < 2 ^ 32 →
        find_gpio bus index = some b ∧ ∀ c ∈ bus.gpios, in_range c index → c = b) ∧
    ((∀ b ∈ bus.gpios, ¬ in_range b index) → find_gpio bus index = none) := by
  refine ⟨?_, find_gpio_outside bus index⟩
  intro b hb hin hfit
  have huniq : ∀ c ∈ bus.gpios, in_range c index → c = b := by
    intro c hc hcin
    by_contra hne
    exact hdisj.forall ranges_disjoint_symm hc hb hne index ⟨hcin, hin⟩
  obtain ⟨g, hg, hgmem, hgin⟩ := find_gpio_inside bus index b hb hin hfit
  exact ⟨by rw [hg, huniq g hgmem hgin], huniq⟩

/-- C1, the scenario of the specification: with `A = [0, 8)` and `B = [8, 16)`
registered, index 5 is routed to `A`, index 10 to `B`, and index 20 nowhere. -/
theorem find_gpio_unique_bank_witness :
    find_gpio busAB 5 = some bankA ∧ find_gpio busAB 10 = some bankB ∧
      find_gpio busAB 20 = none := by
  have hdisj : busAB.gpios.Pairwise ranges_disjoint := by
    simp only [busAB, zeroed, List.pairwise_cons, List.mem_singleton, forall_eq,
      List.not_mem_nil, false_implies, implies_true, List.Pairwise.nil, and_true]
    intro i hi
    simp only [in_range, bankA, bankB] at hi
    omega
  refine ⟨?_, ?_, ?_⟩
  · exact ((find_gpio_unique_bank busAB 5 hdisj).1 bankA (by simp [busAB])
      (by simp [in_range, bankA]) (by simp [bankA])).1
  · exact ((find_gpio_unique_bank busAB 10 hdisj).1 bankB (by simp [busAB])
      (by simp [in_range, bankB]) (by simp [bankB])).1
  · apply (find_gpio_unique_bank busAB 20 hdisj).2
    intro b hb
    simp only [busAB, zeroed, List.mem_cons, List.mem_singleton, List.not_mem_nil,
      or_false] at hb
    rcases hb with rfl | rfl <;> simp [in_range, bankA, bankB]

/-- C1 as stated fails: the registry holding the single bank
`[0xFFFFFFF8, 2 ^ 32)` is pairwise disjoint, index `0xFFFFFFFA` is a 32-bit
value inside that bank's range, and `find_gpio` returns NULL for it. -/
theorem find_gpio_wrap_counterexample :
    wrapBus.gpios.Pairwise ranges_disjoint ∧ wrapBank ∈ wrapBus.gpios ∧
      wrapBank.gpio_start < 2 ^ 32 ∧ wrapBank.gpio_count < 2 ^ 32 ∧
      0xFFFFFFFA < 2 ^ 32 ∧ in_range wrapBank 0xFFFFFFFA ∧
      find_gpio wrapBus 0xFFFFFFFA = none := by
  refine ⟨?_, ?_, ?_, ?_, ?_, ?_, ?_⟩
  · simp [wrapBus]
  · simp [wrapBus]
  · simp [wrapBank]
  · simp [wrapBank]
  · norm_num
  · simp [in_range, wrapBank]
  · simp [find_gpio, find_gpio_loop, gpio_match, wrapBus, wrapBank]

/-- C10: for a bank with 32-bit `gpio_start` and `gpio_count`, the test of
`find_gpio` agrees with membership in `[gpio_start, gpio_start + gpio_count)`
at every 32-bit index exactly when `gpio_start + gpio_count < 2 ^ 32` or
`gpio_count = 0`; when `gpio_count > 0` and the sum reaches `2 ^ 32`, the test
is false at every index and no registry lookup ever returns that bank. -/
theorem gpio_match_agrees_iff (b : pl061_gpios_t)
    (hs : b.gpio_start < 2 ^ 32) (hc : b.gpio_count < 2 ^ 32) :
    ((∀ index, index < 2 ^ 32 → (gpio_match b index = true ↔ in_range b index)) ↔
        (b.gpio_start + b.gpio_count < 2 ^ 32 ∨ b.gpio_count = 0)) ∧
    (0 < b.gpio_count → 2 ^ 32 ≤ b.gpio_start + b.gpio_count →
        (∀ index, gpio_match b index = false) ∧
        ∀ (bus : hikey960_t) (index : Nat), find_gpio bus index ≠ some b) := by
  have hnever : 2 ^ 32 ≤ b.gpio_start + b.gpio_count →
      ∀ index, gpio_match b index = false :=
    fun hwrap index => gpio_match_false_of_wrap b index hc hwrap
  refine ⟨⟨?_, ?_⟩, ?_⟩
  · intro hagree
    by_contra hcon
    have hwrap : 2 ^ 32 ≤ b.gpio_start + b.gpio_count := by omega
    have hpos : 0 < b.gpio_count := by omega
    have hin : in_range b b.gpio_start := ⟨le_refl _, by omega⟩
    have hm := (hagree b.gpio_start hs).2 hin
    rw [hnever hwrap b.gpio_start] at hm
    cases hm
  · intro hor index _
    have hfit : b.gpio_start + b.gpio_count < 2 ^ 32 := by omega
    exact ⟨gpio_match_in_range b index, gpio_match_of_in_range b index hfit⟩
  · intro _ hwrap
    refine ⟨hnever hwrap, ?_⟩
    intro bus index hfound
    have hm := (find_gpio_loop_some index bus.gpios b hfound).2
    rw [hnever hwrap index] at hm
    cases hm

/-- C10, the example of the claim: start `0xFFFFFFF8`, count 8. The test is
false everywhere, index `0xFFFFFFFA` is inside the range, and the lookup in
the registry holding that bank yields NULL. -/
theorem gpio_match_agrees_iff_witness :
    ((∀ index, gpio_match wrapBank index = false) ∧
        ∀ (bus : hikey960_t) (index : Nat), find_gpio bus index ≠ some wrapBank) ∧
      in_range wrapBank 0xFFFFFFFA ∧ find_gpio wrapBus 0xFFFFFFFA = none :=
  ⟨(gpio_match_agrees_iff wrapBank (by simp [wrapBank]) (by simp [wrapBank])).2
      (by simp [wrapBank]) (by simp [wrapBank]),
    by simp [in_range, wrapBank],
    by simp [find_gpio, find_gpio_loop, gpio_match, wrapBus, wrapBank]⟩

/-! ## The GPIO entry points -/

/-- C2, as amended: for every registry and index, `hi3660_gpio_config`,
`hi3660_gpio_read` and `hi3660_gpio_write` return `ZX_ERR_INVALID_ARGS` and
call nothing when the index is outside every registered range; when the index
is inside the range of a registered bank whose `gpio_start + gpio_count` stays
below `2 ^ 32`, each returns exactly what the PL061 operation returns for the
bank found by `find_gpio`, the same index and the same argument, and that call
is the only one made. -/
theorem gpio_ops_route (env : Env) (s : Sys) (bus : hikey960_t)
    (index arg out_value : Nat) :
    ((∀ b ∈ bus.gpios, ¬ in_range b index) →
        hi3660_gpio_config env s bus index arg = (ZX_ERR_INVALID_ARGS, s) ∧
        hi3660_gpio_read env s bus index out_value = (ZX_ERR_INVALID_ARGS, s, out_value) ∧
        hi3660_gpio_write env s bus index arg = (ZX_ERR_INVALID_ARGS, s)) ∧
    ((∃ b ∈ bus.gpios, in_range b index ∧ b.gpio_start + b.gpio_count < 2 ^ 32) →
        ∃ g, find_gpio bus index = some g ∧ g ∈ bus.gpios ∧ in_range g index ∧
          hi3660_gpio_config env s bus index arg =
            (env.pl061_proto_ops.config g index arg,
              { s with log := s.log ++ [Event.pl061_config g index arg] }) ∧
          hi3660_gpio_read env s bus index out_value =
            ((env.pl061_proto_ops.read g index out_value).1,
              { s with log := s.log ++ [Event.pl061_read g index] },
              (env.pl061_proto_ops.read g index out_value).2) ∧
          hi3660_gpio_write env s bus index arg =
            (env.pl061_proto_ops.write g index arg,
              { s with log := s.log ++ [Event.pl061_write g index arg] })) := by
  constructor
  · intro hout
    have hnone := find_gpio_outside bus index hout
    simp [hi3660_gpio_config, hi3660_gpio_read, hi3660_gpio_write, hnone]
  · rintro ⟨b, hb, hin, hfit⟩
    obtain ⟨g, hg, hgmem, hgin⟩ := find_gpio_inside bus index b hb hin hfit
    refine ⟨g, hg, hgmem, hgin, ?_, ?_, ?_⟩ <;>
      simp [hi3660_gpio_config, hi3660_gpio_read, hi3660_gpio_write, hg, Sys.record]

/-- C2 on the registry `A = [0, 8)`, `B = [8, 16)`: index 20 is rejected by
all three entry points, index 10 is served by some bank found by the lookup. -/
theorem gpio_ops_route_witness :
    (hi3660_gpio_config okEnv Sys.init busAB 20 0 = (ZX_ERR_INVALID_ARGS, Sys.init) ∧
      hi3660_gpio_read okEnv Sys.init busAB 20 7 = (ZX_ERR_INVALID_ARGS, Sys.init, 7) ∧
      hi3660_gpio_write okEnv Sys.init busAB 20 0 = (ZX_ERR_INVALID_ARGS, Sys.init)) ∧
    ∃ g, find_gpio busAB 10 = some g ∧ g ∈ busAB.gpios ∧ in_range g 10 ∧
      hi3660_gpio_config okEnv Sys.init busAB 10 0 =
        (okEnv.pl061_proto_ops.config g 10 0,
          { Sys.init with log := Sys.init.log ++ [Event.pl061_config g 10 0] }) ∧
      hi3660_gpio_read okEnv Sys.init busAB 10 7 =
        ((okEnv.pl061_proto_ops.read g 10 7).1,
          { Sys.init with log := Sys.init.log ++ [Event.pl061_read g 10] },
          (okEnv.pl061_proto_ops.read g 10 7).2) ∧
      hi3660_gpio_write okEnv Sys.init busAB 10 0 =
        (okEnv.pl061_proto_ops.write g 10 0,
          { Sys.init with log := Sys.init.log ++ [Event.pl061_write g 10 0] }) :=
  ⟨(gpio_ops_route okEnv Sys.init busAB 20 0 7).1 (by
      intro b hb
      simp only [busAB, zeroed, List.mem_cons, List.mem_singleton, List.not_mem_nil,
        or_false] at hb
      rcases hb with rfl | rfl <;> simp [in_range, bankA, bankB]),
    (gpio_ops_route okEnv Sys.init busAB 10 0 7).2
      ⟨bankB, by simp [busAB], by simp [in_range, bankB], by simp [bankB]⟩⟩

/-- C2 as stated fails: index `0xFFFFFFFA` is inside the range of the
registered bank `[0xFFFFFFF8, 2 ^ 32)`, the PL061 operations of that bank
return `ZX_OK`, yet all three entry points return `ZX_ERR_INVALID_ARGS` and call
nothing. -/
theorem gpio_ops_wrap_counterexample :
    wrapBank ∈ wrapBus.gpios ∧ in_range wrapBank 0xFFFFFFFA ∧
      okEnv.pl061_proto_ops.config wrapBank 0xFFFFFFFA 0 = ZX_OK ∧
      (okEnv.pl061_proto_ops.read wrapBank 0xFFFFFFFA 7).1 = ZX_OK ∧
      okEnv.pl061_proto_ops.write wrapBank 0xFFFFFFFA 0 = ZX_OK ∧
      ZX_ERR_INVALID_ARGS ≠ ZX_OK ∧
      hi3660_gpio_config okEnv Sys.init wrapBus 0xFFFFFFFA 0 =
        (ZX_ERR_INVALID_ARGS, Sys.init) ∧
      hi3660_gpio_read okEnv Sys.init wrapBus 0xFFFFFFFA 7 =
        (ZX_ERR_INVALID_ARGS, Sys.init, 7) ∧
      hi3660_gpio_write okEnv Sys.init wrapBus 0xFFFFFFFA 0 =
        (ZX_ERR_INVALID_ARGS, Sys.init) := by
  have hnone : find_gpio wrapBus 0xFFFFFFFA = none := by
    simp [find_gpio, find_gpio_loop, gpio_match, wrapBus, wrapBank]
  refine ⟨by simp [wrapBus], by simp [in_range, wrapBank], rfl, rfl, rfl, by decide, ?_, ?_, ?_⟩ <;>
    simp [hi3660_gpio_config, hi3660_gpio_read, hi3660_gpio_write, hnone]

/-! ## The USB mode switch -/

theorem set_mode_otg (env : Env) (s : Sys) (bus : hikey960_t) :
    hikey960_set_mode env s bus USB_MODE_OTG = (ZX_ERR_NOT_SUPPORTED, s, bus) := by
  simp [hikey960_set_mode]

/-- C3: whatever the driver instance (so whatever its USB mode) and whatever
the hardware procedure would do, `hikey960_set_mode(OTG)` returns
`ZX_ERR_NOT_SUPPORTED`, makes no call, and leaves the instance as it was; any
number of such calls in a row leaves the state of before the first one. -/
theorem set_mode_otg_rejected (env : Env) (s : Sys) (bus : hikey960_t) (n : Nat) :
    (hikey960_set_mode env s bus USB_MODE_OTG).1 = ZX_ERR_NOT_SUPPORTED ∧
      (hikey960_set_mode env s bus USB_MODE_OTG).2.1 = s ∧
      (hikey960_set_mode env s bus USB_MODE_OTG).2.2 = bus ∧
      (∀ m, Event.hikey960_usb_set_mode m ∉
        (hikey960_set_mode env s bus USB_MODE_OTG).2.1.log.drop s.log.length) ∧
      set_mode_repeat env USB_MODE_OTG n (s, bus) = (s, bus) := by
  refine ⟨by rw [set_mode_otg], by rw [set_mode_otg], by rw [set_mode_otg], ?_, ?_⟩
  · intro m
    rw [set_mode_otg]
    simp
  · induction n with
    | zero => rfl
    | succ k ih =>
      unfold set_mode_repeat
      rw [set_mode_otg]
      exact ih

/-- C4: for a requested mode other than OTG, `hikey960_set_mode` calls the
hardware procedure once with that mode and returns its status and the
instance it leaves; with the procedure of section 4.3, the USB mode is the
requested one when the status is `ZX_OK`, and the instance is untouched when
it is not. -/
theorem set_mode_switches (env : Env) (hw : usb_mode_t → zx_status_t) (s : Sys)
    (bus : hikey960_t) (mode : usb_mode_t) (hmode : mode ≠ USB_MODE_OTG)
    (henv : env.hikey960_usb_set_mode = hikey960_usb_set_mode hw) :
    (hikey960_set_mode env s bus mode).2.1.log =
        s.log ++ [Event.hikey960_usb_set_mode mode] ∧
      (hikey960_set_mode env s bus mode).2.1.mapped = s.mapped ∧
      (hikey960_set_mode env s bus mode).1 = (env.hikey960_usb_set_mode bus mode).1 ∧
      (hikey960_set_mode env s bus mode).2.2 = (env.hikey960_usb_set_mode bus mode).2 ∧
      (hikey960_set_mode env s bus mode).1 = hw mode ∧
      ((hikey960_set_mode env s bus mode).1 = ZX_OK →
        (hikey960_set_mode env s bus mode).2.2 = { bus with usb_mode := mode }) ∧
      ((hikey960_set_mode env s bus mode).1 ≠ ZX_OK →
        (hikey960_set_mode env s bus mode).2.2 = bus) := by
  have hdef : hikey960_set_mode env s bus mode =
      ((hikey960_usb_set_mode hw bus mode).1, s.record (Event.hikey960_usb_set_mode mode),
        (hikey960_usb_set_mode hw bus mode).2) := by
    simp [hikey960_set_mode, hmode, call_usb_set_mode, henv]
  rw [hdef, henv]
  by_cases hok : hw mode = ZX_OK
  · simp [hikey960_usb_set_mode, hok, Sys.record]
  · simp [hikey960_usb_set_mode, hok, Sys.record]

/-- C4, the scenario of the specification: from PERIPHERAL, `set_mode(HOST)`
ends in HOST with `ZX_OK` when the hardware succeeds, and stays in PERIPHERAL
with the failure status when it does not. -/
theorem set_mode_switches_witness :
    ((hikey960_set_mode okEnv Sys.init busPeripheral USB_MODE_HOST).1 = ZX_OK ∧
      (hikey960_set_mode okEnv Sys.init busPeripheral USB_MODE_HOST).2.2.usb_mode =
        USB_MODE_HOST) ∧
    ((hikey960_set_mode usbFailEnv Sys.init busPeripheral USB_MODE_HOST).1 =
        ZX_ERR_NOT_SUPPORTED ∧
      (hikey960_set_mode usbFailEnv Sys.init busPeripheral USB_MODE_HOST).2.2 =
        busPeripheral) := by
  have h1 := set_mode_switches okEnv (fun _ => ZX_OK) Sys.init busPeripheral USB_MODE_HOST
    (by decide) rfl
  have h2 := set_mode_switches usbFailEnv (fun _ => ZX_ERR_NOT_SUPPORTED) Sys.init
    busPeripheral USB_MODE_HOST (by decide) rfl
  refine ⟨⟨h1.2.2.2.2.1, ?_⟩, h2.2.2.2.2.1, h2.2.2.2.2.2.2 ?_⟩
  · rw [h1.2.2.2.2.2.1 h1.2.2.2.2.1]
  · rw [h2.2.2.2.2.1]
    decide

/-! ## Protocol dispatch -/

/-- C5: for a protocol identifier that is neither `ZX_PROTOCOL_GPIO` nor
`ZX_PROTOCOL_USB_MODE_SWITCH`, `hikey960_get_protocol` returns
`ZX_ERR_NOT_SUPPORTED` and `*out` holds what it held before the call. -/
theorem get_protocol_unknown (ids : protodefs) (bus : hikey960_t) (proto_id : Nat)
    (out : protocol_t) (hg : proto_id ≠ ids.ZX_PROTOCOL_GPIO)
    (hu : proto_id ≠ ids.ZX_PROTOCOL_USB_MODE_SWITCH) :
    hikey960_get_protocol ids bus proto_id out = (ZX_ERR_NOT_SUPPORTED, out) := by
  simp [hikey960_get_protocol, hg, hu]

/-- C5 at identifier 3, with GPIO = 1 and USB mode switch = 2. -/
theorem get_protocol_unknown_witness :
    hikey960_get_protocol exampleIds zeroed 3 { ops := ops_ref.platform_bus_ops, ctx := true } =
      (ZX_ERR_NOT_SUPPORTED, { ops := ops_ref.platform_bus_ops, ctx := true }) :=
  get_protocol_unknown exampleIds zeroed 3 _ (by decide) (by decide)

/-! ## Bind: the outcome of each path -/

theorem filter_ne_self (l : List Region) (r : Region) (h : r ∉ l) :
    l.filter (fun x => decide (x ≠ r)) = l := by
  rw [List.filter_eq_self]
  intro a ha
  simp only [ne_eq, decide_not, Bool.not_eq_true', decide_eq_false_iff_not]
  rintro rfl
  exact h ha

theorem fresh_unfold (s : Sys) (hfresh : ∀ x ∈ boardRegions, x ∉ s.mapped) :
    Region.usb3otg_bc ∉ s.mapped ∧ Region.peri_crg ∉ s.mapped ∧ Region.pctrl ∉ s.mapped :=
  ⟨hfresh _ (by simp [boardRegions]), hfresh _ (by simp [boardRegions]),
    hfresh _ (by simp [boardRegions])⟩

theorem bind_no_memory (env : Env) (s : Sys) (hcalloc : env.calloc = false) :
    hikey960_bind env s = (ZX_ERR_NO_MEMORY, s, none) := by
  simp [hikey960_bind, hcalloc]

theorem bind_no_pbus (env : Env) (s : Sys) (hcalloc : env.calloc = true)
    (hpbus : env.device_get_protocol ≠ ZX_OK) :
    hikey960_bind env s =
      (ZX_ERR_NOT_SUPPORTED, { s with log := s.log ++ [Event.device_get_protocol] }, none) := by
  simp [hikey960_bind, hcalloc, hpbus, Sys.record]

theorem bind_fail_usb3otg_bc (env : Env) (s : Sys) (hcalloc : env.calloc = true)
    (hpbus : env.device_get_protocol = ZX_OK)
    (h0 : env.io_buffer_init_physical Region.usb3otg_bc ≠ ZX_OK) :
    (hikey960_bind env s).1 = env.io_buffer_init_physical Region.usb3otg_bc ∧
      (hikey960_bind env s).2.2 = none ∧
      (hikey960_bind env s).2.1.log = s.log ++
        [Event.device_get_protocol, Event.io_buffer_init_physical Region.usb3otg_bc,
          Event.io_buffer_release { vmo_handle := none },
          Event.io_buffer_release { vmo_handle := none },
          Event.io_buffer_release { vmo_handle := none }] ∧
      (hikey960_bind env s).2.1.mapped = s.mapped := by
  simp [hikey960_bind, io_buffer_init_physical, bind_fail, hikey960_release, release_gpios,
    io_buffer_release, Sys.record, zxlogf, zeroed, hcalloc, hpbus, h0]

theorem bind_fail_peri_crg (env : Env) (s : Sys) (hcalloc : env.calloc = true)
    (hpbus : env.device_get_protocol = ZX_OK)
    (h0 : env.io_buffer_init_physical Region.usb3otg_bc = ZX_OK)
    (h1 : env.io_buffer_init_physical Region.peri_crg ≠ ZX_OK) :
    (hikey960_bind env s).1 = env.io_buffer_init_physical Region.peri_crg ∧
      (hikey960_bind env s).2.2 = none ∧
      (hikey960_bind env s).2.1.log = s.log ++
        [Event.device_get_protocol, Event.io_buffer_init_physical Region.usb3otg_bc,
          Event.io_buffer_init_physical Region.peri_crg,
          Event.io_buffer_release { vmo_handle := some Region.usb3otg_bc },
          Event.io_buffer_release { vmo_handle := none },
          Event.io_buffer_release { vmo_handle := none }] ∧
      ((∀ x ∈ boardRegions, x ∉ s.mapped) → (hikey960_bind env s).2.1.mapped = s.mapped) := by
  refine ⟨?_, ?_, ?_, ?_⟩
  · simp [hikey960_bind, io_buffer_init_physical, bind_fail, hcalloc, hpbus, h0, h1]
  · simp [hikey960_bind, io_buffer_init_physical, bind_fail, hcalloc, hpbus, h0, h1]
  · simp [hikey960_bind, io_buffer_init_physical, bind_fail, hikey960_release, release_gpios,
      io_buffer_release, Sys.record, zxlogf, zeroed, hcalloc, hpbus, h0, h1]
  · intro hfresh
    have hf := fresh_unfold s hfresh
    simp [hikey960_bind, io_buffer_init_physical, bind_fail, hikey960_release, release_gpios,
      io_buffer_release, Sys.record, zxlogf, zeroed, hcalloc, hpbus, h0, h1, List.filter_append]
    intro a ha
    rintro rfl
    exact hf.1 ha

theorem bind_fail_pctrl (env : Env) (s : Sys) (hcalloc : env.calloc = true)
    (hpbus : env.device_get_protocol = ZX_OK)
    (h0 : env.io_buffer_init_physical Region.usb3otg_bc = ZX_OK)
    (h1 : env.io_buffer_init_physical Region.peri_crg = ZX_OK)
    (h2 : env.io_buffer_init_physical Region.pctrl ≠ ZX_OK) :
    (hikey960_bind env s).1 = env.io_buffer_init_physical Region.pctrl ∧
      (hikey960_bind env s).2.2 = none ∧
      (hikey960_bind env s).2.1.log = s.log ++
        [Event.device_get_protocol, Event.io_buffer_init_physical Region.usb3otg_bc,
          Event.io_buffer_init_physical Region.peri_crg,
          Event.io_buffer_init_physical Region.pctrl,
          Event.io_buffer_release { vmo_handle := some Region.usb3otg_bc },
          Event.io_buffer_release { vmo_handle := some Region.peri_crg },
          Event.io_buffer_release { vmo_handle := none }] ∧
      ((∀ x ∈ boardRegions, x ∉ s.mapped) → (hikey960_bind env s).2.1.mapped = s.mapped) := by
  refine ⟨?_, ?_, ?_, ?_⟩
  · simp [hikey960_bind, io_buffer_init_physical, bind_fail, hcalloc, hpbus, h0, h1, h2]
  · simp [hikey960_bind, io_buffer_init_physical, bind_fail, hcalloc, hpbus, h0, h1, h2]
  · simp [hikey960_bind, io_buffer_init_physical, bind_fail, hikey960_release, release_gpios,
      io_buffer_release, Sys.record, zxlogf, zeroed, hcalloc, hpbus, h0, h1, h2]
  · intro hfresh
    have hf := fresh_unfold s hfresh
    simp [hikey960_bind, io_buffer_init_physical, bind_fail, hikey960_release, release_gpios,
      io_buffer_release, Sys.record, zxlogf, zeroed, hcalloc, hpbus, h0, h1, h2,
      List.filter_append]
    intro a ha
    refine ⟨?_, ?_⟩ <;> rintro rfl
    · exact hf.2.1 ha
    · exact hf.1 ha

theorem bind_fail_device_add (env : Env) (s : Sys) (hcalloc : env.calloc = true)
    (hpbus : env.device_get_protocol = ZX_OK)
    (h0 : env.io_buffer_init_physical Region.usb3otg_bc = ZX_OK)
    (h1 : env.io_buffer_init_physical Region.peri_crg = ZX_OK)
    (h2 : env.io_buffer_init_physical Region.pctrl = ZX_OK)
    (h3 : env.device_add ≠ ZX_OK) :
    (hikey960_bind env s).1 = env.device_add ∧
      (hikey960_bind env s).2.2 = none ∧
      (hikey960_bind env s).2.1.log = s.log ++
        [Event.device_get_protocol, Event.io_buffer_init_physical Region.usb3otg_bc,
          Event.io_buffer_init_physical Region.peri_crg,
          Event.io_buffer_init_physical Region.pctrl,
          Event.device_add,
          Event.io_buffer_release { vmo_handle := some Region.usb3otg_bc },
          Event.io_buffer_release { vmo_handle := some Region.peri_crg },
          Event.io_buffer_release { vmo_handle := some Region.pctrl }] ∧
      ((∀ x ∈ boardRegions, x ∉ s.mapped) → (hikey960_bind env s).2.1.mapped = s.mapped) := by
  refine ⟨?_, ?_, ?_, ?_⟩
  · simp [hikey960_bind, io_buffer_init_physical, bind_fail, hcalloc, hpbus, h0, h1, h2, h3]
  · simp [hikey960_bind, io_buffer_init_physical, bind_fail, hcalloc, hpbus, h0, h1, h2, h3]
  · simp [hikey960_bind, io_buffer_init_physical, bind_fail, hikey960_release, release_gpios,
      io_buffer_release, Sys.record, zxlogf, zeroed, hcalloc, hpbus, h0, h1, h2, h3]
  · intro hfresh
    have hf := fresh_unfold s hfresh
    simp [hikey960_bind, io_buffer_init_physical, bind_fail, hikey960_release, release_gpios,
      io_buffer_release, Sys.record, zxlogf, zeroed, hcalloc, hpbus, h0, h1, h2, h3,
      List.filter_append]
    intro a ha
    refine ⟨?_, ?_, ?_⟩ <;> rintro rfl
    · exact hf.2.2 ha
    · exact hf.2.1 ha
    · exact hf.1 ha

theorem bind_success (env : Env) (s : Sys) (hcalloc : env.calloc = true)
    (hpbus : env.device_get_protocol = ZX_OK)
    (h0 : env.io_buffer_init_physical Region.usb3otg_bc = ZX_OK)
    (h1 : env.io_buffer_init_physical Region.peri_crg = ZX_OK)
    (h2 : env.io_buffer_init_physical Region.pctrl = ZX_OK)
    (h3 : env.device_add = ZX_OK) :
    (hikey960_bind env s).1 = ZX_OK ∧
      (hikey960_bind env s).2.2 = some (env.hikey960_usb_set_mode
        { pbus := { ops := ops_ref.platform_bus_ops, ctx := true }
          gpios := (env.hi3360_add_gpios []).2
          usb_mode := USB_MODE_NONE
          usb3otg_bc := { vmo_handle := some Region.usb3otg_bc }
          peri_crg := { vmo_handle := some Region.peri_crg }
          pctrl := { vmo_handle := some Region.pctrl }
          gpio := { ops := ops_ref.gpio_ops, ctx := true }
          usb_mode_switch := { ops := ops_ref.usb_mode_switch_ops, ctx := true } }
        USB_MODE_NONE).2 ∧
      (hikey960_bind env s).2.1.log = s.log ++
        [Event.device_get_protocol, Event.io_buffer_init_physical Region.usb3otg_bc,
          Event.io_buffer_init_physical Region.peri_crg,
          Event.io_buffer_init_physical Region.pctrl,
          Event.device_add, Event.pbus_set_interface (boundBus []), Event.hi3360_add_gpios,
          Event.hikey960_add_devices (boundBus (env.hi3360_add_gpios []).2),
          Event.hikey960_usb_init (boundBus (env.hi3360_add_gpios []).2),
          Event.hikey960_usb_set_mode USB_MODE_NONE] ∧
      (hikey960_bind env s).2.1.mapped = s.mapped ++
        (boardRegions ++
          (env.hi3360_add_gpios []).2.filterMap (fun b => b.buffer.vmo_handle)) := by
  refine ⟨?_, ?_, ?_, ?_⟩
  · simp [hikey960_bind, io_buffer_init_physical, bind_registered, hcalloc, hpbus, h0, h1, h2, h3]
  · simp [hikey960_bind, io_buffer_init_physical, bind_registered, call_usb_set_mode, zeroed,
      hcalloc, hpbus, h0, h1, h2, h3]
  · simp [hikey960_bind, io_buffer_init_physical, bind_registered, call_usb_set_mode, zeroed,
      boundBus, Sys.record, zxlogf, hcalloc, hpbus, h0, h1, h2, h3]
  · simp [hikey960_bind, io_buffer_init_physical, bind_registered, call_usb_set_mode, zeroed,
      Sys.record, zxlogf, boardRegions, hcalloc, hpbus, h0, h1, h2, h3]

theorem drop_new (l evs : List Event) : (l ++ evs).drop l.length = evs := by
  simp

/-! ## Bind: region acquisition -/

/-- C6: with the driver instance allocated, the parent's bus protocol obtained
and none of the board windows mapped beforehand: if mapping window `k` (of
`usb3otg_bc`, `peri_crg`, `pctrl`, counted from 0) fails after the earlier ones
succeeded, then windows `0..k` are the only ones attempted, windows `0..k-1`
are the ones unmapped, each once, the set of mapped windows is what it was
before the call, no board window is mapped, and `hikey960_bind` returns the
status of the failed mapping; and if all three map and `device_add` fails, all
three are unmapped, each once, before `hikey960_bind` returns that status. -/
theorem bind_regions_all_or_nothing (env : Env) (s : Sys) (hcalloc : env.calloc = true)
    (hpbus : env.device_get_protocol = ZX_OK)
    (hfresh : ∀ x ∈ boardRegions, x ∉ s.mapped) :
    (∀ (k : Nat) (r : Region), boardRegions[k]? = some r →
        (∀ x ∈ boardRegions.take k, env.io_buffer_init_physical x = ZX_OK) →
        env.io_buffer_init_physical r ≠ ZX_OK →
        (hikey960_bind env s).1 = env.io_buffer_init_physical r ∧
        (hikey960_bind env s).2.2 = none ∧
        attempted ((hikey960_bind env s).2.1.log.drop s.log.length) =
          boardRegions.take (k + 1) ∧
        unmapped ((hikey960_bind env s).2.1.log.drop s.log.length) = boardRegions.take k ∧
        (∀ x ∈ boardRegions.take k,
          (unmapped ((hikey960_bind env s).2.1.log.drop s.log.length)).count x = 1) ∧
        (hikey960_bind env s).2.1.mapped = s.mapped ∧
        (∀ x ∈ boardRegions, x ∉ (hikey960_bind env s).2.1.mapped)) ∧
    ((∀ x ∈ boardRegions, env.io_buffer_init_physical x = ZX_OK) →
        env.device_add ≠ ZX_OK →
        (hikey960_bind env s).1 = env.device_add ∧
        (hikey960_bind env s).2.2 = none ∧
        attempted ((hikey960_bind env s).2.1.log.drop s.log.length) = boardRegions ∧
        unmapped ((hikey960_bind env s).2.1.log.drop s.log.length) = boardRegions ∧
        (∀ x ∈ boardRegions,
          (unmapped ((hikey960_bind env s).2.1.log.drop s.log.length)).count x = 1) ∧
        (∀ b, Event.pbus_set_interface b ∉
          (hikey960_bind env s).2.1.log.drop s.log.length) ∧
        (hikey960_bind env s).2.1.mapped = s.mapped ∧
        (∀ x ∈ boardRegions, x ∉ (hikey960_bind env s).2.1.mapped)) := by
  constructor
  · intro k r hr hok hfail
    match k, hr, hok with
    | 0, hr, _ =>
      have hr0 : r = Region.usb3otg_bc := by simpa [boardRegions] using hr.symm
      subst hr0
      obtain ⟨e1, e2, e3, e4⟩ := bind_fail_usb3otg_bc env s hcalloc hpbus hfail
      rw [e1, e2, e3, e4, drop_new]
      refine ⟨rfl, rfl, rfl, rfl, ?_, rfl, hfresh⟩
      simp
    | 1, hr, hok =>
      have hr1 : r = Region.peri_crg := by simpa [boardRegions] using hr.symm
      subst hr1
      have h0 := hok Region.usb3otg_bc (by simp [boardRegions])
      obtain ⟨e1, e2, e3, e4⟩ := bind_fail_peri_crg env s hcalloc hpbus h0 hfail
      rw [e1, e2, e3, e4 hfresh, drop_new]
      refine ⟨rfl, rfl, rfl, rfl, ?_, rfl, hfresh⟩
      simp [boardRegions, unmapped]
    | 2, hr, hok =>
      have hr2 : r = Region.pctrl := by simpa [boardRegions] using hr.symm
      subst hr2
      have h0 := hok Region.usb3otg_bc (by simp [boardRegions])
      have h1 := hok Region.peri_crg (by simp [boardRegions])
      obtain ⟨e1, e2, e3, e4⟩ := bind_fail_pctrl env s hcalloc hpbus h0 h1 hfail
      rw [e1, e2, e3, e4 hfresh, drop_new]
      refine ⟨rfl, rfl, rfl, rfl, ?_, rfl, hfresh⟩
      simp [boardRegions, unmapped]
    | n + 3, hr, _ => simp [boardRegions] at hr
  · intro hok hfail
    have h0 := hok Region.usb3otg_bc (by simp [boardRegions])
    have h1 := hok Region.peri_crg (by simp [boardRegions])
    have h2 := hok Region.pctrl (by simp [boardRegions])
    obtain ⟨e1, e2, e3, e4⟩ := bind_fail_device_add env s hcalloc hpbus h0 h1 h2 hfail
    rw [e1, e2, e3, e4 hfresh, drop_new]
    refine ⟨rfl, rfl, rfl, rfl, ?_, ?_, rfl, hfresh⟩
    · simp [boardRegions, unmapped]
    · simp

/-- C6, the scenario of the specification: windows 1 and 2 map and window 3
fails. Bind returns the mapping's status, windows 1 and 2 are the ones
unmapped, and nothing is mapped afterwards. Likewise when `device_add` fails
after three successful mappings: all three windows are unmapped. -/
theorem bind_regions_all_or_nothing_witness :
    ((hikey960_bind pctrlFailEnv Sys.init).1 = ZX_ERR_NO_MEMORY ∧
      unmapped ((hikey960_bind pctrlFailEnv Sys.init).2.1.log.drop Sys.init.log.length) =
        [Region.usb3otg_bc, Region.peri_crg] ∧
      (hikey960_bind pctrlFailEnv Sys.init).2.1.mapped = []) ∧
    ((hikey960_bind deviceAddFailEnv Sys.init).1 = ZX_ERR_NO_MEMORY ∧
      unmapped ((hikey960_bind deviceAddFailEnv Sys.init).2.1.log.drop Sys.init.log.length) =
        [Region.usb3otg_bc, Region.peri_crg, Region.pctrl] ∧
      (hikey960_bind deviceAddFailEnv Sys.init).2.1.mapped = []) :=
  have h := (bind_regions_all_or_nothing pctrlFailEnv Sys.init rfl rfl
    (by simp [Sys.init])).1 2 Region.pctrl rfl (by decide) (by decide)
  have h2 := (bind_regions_all_or_nothing deviceAddFailEnv Sys.init rfl rfl
    (by simp [Sys.init])).2 (by decide) (by decide)
  ⟨⟨h.1, h.2.2.2.1, h.2.2.2.2.2.1⟩, ⟨h2.1, h2.2.2.2.1, h2.2.2.2.2.2.2.1⟩⟩

/-! ## Bind: fatal failures -/

/-- C7: if obtaining the parent's bus protocol fails, or mapping any of the
three board windows fails, `hikey960_bind` returns a status other than `ZX_OK`,
no driver instance survives, and none of `device_add`, `pbus_set_interface`,
`hi3360_add_gpios`, `hikey960_add_devices`, `hikey960_usb_init`,
`hikey960_usb_set_mode` is called. -/
theorem bind_fatal_no_registration (env : Env) (s : Sys)
    (hfail : env.device_get_protocol ≠ ZX_OK ∨
      ∃ x ∈ boardRegions, env.io_buffer_init_physical x ≠ ZX_OK) :
    (hikey960_bind env s).1 ≠ ZX_OK ∧ (hikey960_bind env s).2.2 = none ∧
      ∀ e ∈ (hikey960_bind env s).2.1.log.drop s.log.length, e.afterMapping = false := by
  cases hcalloc : env.calloc with
  | false =>
    rw [bind_no_memory env s hcalloc]
    refine ⟨?_, rfl, ?_⟩
    · show ZX_ERR_NO_MEMORY ≠ ZX_OK
      decide
    · simp
  | true =>
    by_cases hpbus : env.device_get_protocol = ZX_OK
    · by_cases h0 : env.io_buffer_init_physical Region.usb3otg_bc = ZX_OK
      · by_cases h1 : env.io_buffer_init_physical Region.peri_crg = ZX_OK
        · by_cases h2 : env.io_buffer_init_physical Region.pctrl = ZX_OK
          · exfalso
            rcases hfail with hp | ⟨x, hx, hne⟩
            · exact hp hpbus
            · simp only [boardRegions, List.mem_cons, List.mem_singleton, List.not_mem_nil,
                or_false] at hx
              rcases hx with rfl | rfl | rfl
              · exact hne h0
              · exact hne h1
              · exact hne h2
          · obtain ⟨e1, e2, e3, _⟩ := bind_fail_pctrl env s hcalloc hpbus h0 h1 h2
            rw [e1, e2, e3, drop_new]
            exact ⟨h2, rfl, by simp [Event.afterMapping]⟩
        · obtain ⟨e1, e2, e3, _⟩ := bind_fail_peri_crg env s hcalloc hpbus h0 h1
          rw [e1, e2, e3, drop_new]
          exact ⟨h1, rfl, by simp [Event.afterMapping]⟩
      · obtain ⟨e1, e2, e3, _⟩ := bind_fail_usb3otg_bc env s hcalloc hpbus h0
        rw [e1, e2, e3, drop_new]
        exact ⟨h0, rfl, by simp [Event.afterMapping]⟩
    · rw [bind_no_pbus env s hcalloc hpbus]
      refine ⟨?_, rfl, ?_⟩
      · show ZX_ERR_NOT_SUPPORTED ≠ ZX_OK
        decide
      · simp [Event.afterMapping]

/-- C7, the scenario of the specification: the third window fails to map.
Bind fails and nothing from `device_add` onwards is called. -/
theorem bind_fatal_no_registration_witness :
    (hikey960_bind pctrlFailEnv Sys.init).1 ≠ ZX_OK ∧
      (hikey960_bind pctrlFailEnv Sys.init).2.2 = none ∧
      ∀ e ∈ (hikey960_bind pctrlFailEnv Sys.init).2.1.log.drop Sys.init.log.length,
        e.afterMapping = false :=
  bind_fatal_no_registration pctrlFailEnv Sys.init
    (Or.inr ⟨Region.pctrl, by simp [boardRegions], by decide⟩)

/-! ## Bind: non-fatal failures -/

/-- C9: once the driver instance is allocated, the parent's bus protocol is
obtained, the three windows map and `device_add` succeeds, `hikey960_bind`
returns `ZX_OK` whatever `hi3360_add_gpios`, `hikey960_add_devices`,
`hikey960_usb_init` and the mode switch report. The calls made are, in this
order, the protocol query, the three mappings, `device_add`,
`pbus_set_interface`, `hi3360_add_gpios`, `hikey960_add_devices`,
`hikey960_usb_init` and `hikey960_usb_set_mode(NONE)`: no step is skipped,
nothing is released, the three windows stay mapped, USB initialisation comes
after `pbus_set_interface`, and the mode switch to NONE is called once, last,
on an instance whose two capabilities are set. The instance handed to the
parent by `pbus_set_interface`, and the one every `hikey960_add_devices` and
`hikey960_usb_init` call receives, already has both capabilities constructed:
`gpio` bound to `gpio_ops` and `usb_mode_switch` bound to
`usb_mode_switch_ops`, each with the instance as context. -/
theorem bind_nonfatal_steps (env : Env) (s : Sys) (hcalloc : env.calloc = true)
    (hpbus : env.device_get_protocol = ZX_OK)
    (hmap : ∀ x ∈ boardRegions, env.io_buffer_init_physical x = ZX_OK)
    (hadd : env.device_add = ZX_OK) :
    (hikey960_bind env s).1 = ZX_OK ∧
      (hikey960_bind env s).2.1.log.drop s.log.length =
        [Event.device_get_protocol, Event.io_buffer_init_physical Region.usb3otg_bc,
          Event.io_buffer_init_physical Region.peri_crg,
          Event.io_buffer_init_physical Region.pctrl,
          Event.device_add, Event.pbus_set_interface (boundBus []), Event.hi3360_add_gpios,
          Event.hikey960_add_devices (boundBus (env.hi3360_add_gpios []).2),
          Event.hikey960_usb_init (boundBus (env.hi3360_add_gpios []).2),
          Event.hikey960_usb_set_mode USB_MODE_NONE] ∧
      releaseCalls ((hikey960_bind env s).2.1.log.drop s.log.length) = 0 ∧
      (∀ x ∈ boardRegions, x ∈ (hikey960_bind env s).2.1.mapped) ∧
      ((hikey960_bind env s).2.1.log.drop s.log.length).getLast? =
        some (Event.hikey960_usb_set_mode USB_MODE_NONE) ∧
      ((hikey960_bind env s).2.1.log.drop s.log.length).count
        (Event.hikey960_usb_set_mode USB_MODE_NONE) = 1 ∧
      (∀ m, Event.hikey960_usb_set_mode m ∈ (hikey960_bind env s).2.1.log.drop s.log.length →
        m = USB_MODE_NONE) ∧
      (∀ b, (Event.pbus_set_interface b ∈ (hikey960_bind env s).2.1.log.drop s.log.length ∨
            Event.hikey960_add_devices b ∈ (hikey960_bind env s).2.1.log.drop s.log.length ∨
            Event.hikey960_usb_init b ∈ (hikey960_bind env s).2.1.log.drop s.log.length) →
        b.gpio = { ops := ops_ref.gpio_ops, ctx := true } ∧
        b.usb_mode_switch = { ops := ops_ref.usb_mode_switch_ops, ctx := true }) ∧
      (∃ pre mid post b0 b1, (hikey960_bind env s).2.1.log.drop s.log.length =
          pre ++ Event.pbus_set_interface b0 :: mid ++ Event.hikey960_usb_init b1 :: post ∧
        (∀ b, Event.hikey960_usb_init b ∉ pre ++ mid) ∧
        b0.gpio = { ops := ops_ref.gpio_ops, ctx := true } ∧
        b0.usb_mode_switch = { ops := ops_ref.usb_mode_switch_ops, ctx := true } ∧
        b1.gpio = { ops := ops_ref.gpio_ops, ctx := true } ∧
        b1.usb_mode_switch = { ops := ops_ref.usb_mode_switch_ops, ctx := true }) ∧
      (hikey960_bind env s).2.2 = some (env.hikey960_usb_set_mode
        { pbus := { ops := ops_ref.platform_bus_ops, ctx := true }
          gpios := (env.hi3360_add_gpios []).2
          usb_mode := USB_MODE_NONE
          usb3otg_bc := { vmo_handle := some Region.usb3otg_bc }
          peri_crg := { vmo_handle := some Region.peri_crg }
          pctrl := { vmo_handle := some Region.pctrl }
          gpio := { ops := ops_ref.gpio_ops, ctx := true }
          usb_mode_switch := { ops := ops_ref.usb_mode_switch_ops, ctx := true } }
        USB_MODE_NONE).2 := by
  have h0 := hmap Region.usb3otg_bc (by simp [boardRegions])
  have h1 := hmap Region.peri_crg (by simp [boardRegions])
  have h2 := hmap Region.pctrl (by simp [boardRegions])
  obtain ⟨e1, e2, e3, e4⟩ := bind_success env s hcalloc hpbus h0 h1 h2 hadd
  rw [e1, e2, e3, e4, drop_new]
  refine ⟨rfl, rfl, rfl, ?_, rfl, ?_, ?_, ?_, ?_, rfl⟩
  · intro x hx
    simp [hx]
  · simp
  · intro m hm
    simpa using hm
  · intro b hb
    simp only [List.mem_cons, List.mem_singleton, List.not_mem_nil, or_false, Event.pbus_set_interface.injEq,
      Event.hikey960_add_devices.injEq, Event.hikey960_usb_init.injEq, reduceCtorEq,
      false_or, or_false] at hb
    rcases hb with rfl | rfl | rfl <;> exact ⟨rfl, rfl⟩
  · refine ⟨[Event.device_get_protocol, Event.io_buffer_init_physical Region.usb3otg_bc,
        Event.io_buffer_init_physical Region.peri_crg,
        Event.io_buffer_init_physical Region.pctrl, Event.device_add],
      [Event.hi3360_add_gpios,
        Event.hikey960_add_devices (boundBus (env.hi3360_add_gpios []).2)],
      [Event.hikey960_usb_set_mode USB_MODE_NONE],
      boundBus [], boundBus (env.hi3360_add_gpios []).2, rfl, ?_, rfl, rfl, rfl, rfl⟩
    intro b
    simp

/-- C9 with every step after `device_add` failing: bind still returns
`ZX_OK`, releases nothing, ends with the mode switch to NONE, and USB
initialisation receives the instance with both capabilities set. -/
theorem bind_nonfatal_steps_witness :
    (hikey960_bind lateFailEnv Sys.init).1 = ZX_OK ∧
      releaseCalls ((hikey960_bind lateFailEnv Sys.init).2.1.log.drop Sys.init.log.length) = 0 ∧
      ((hikey960_bind lateFailEnv Sys.init).2.1.log.drop Sys.init.log.length).getLast? =
        some (Event.hikey960_usb_set_mode USB_MODE_NONE) ∧
      (hikey960_bind lateFailEnv Sys.init).2.1.log.drop Sys.init.log.length =
        [Event.device_get_protocol, Event.io_buffer_init_physical Region.usb3otg_bc,
          Event.io_buffer_init_physical Region.peri_crg,
          Event.io_buffer_init_physical Region.pctrl,
          Event.device_add, Event.pbus_set_interface (boundBus []), Event.hi3360_add_gpios,
          Event.hikey960_add_devices (boundBus []), Event.hikey960_usb_init (boundBus []),
          Event.hikey960_usb_set_mode USB_MODE_NONE] ∧
      (boundBus []).gpio = { ops := ops_ref.gpio_ops, ctx := true } ∧
      (boundBus []).usb_mode_switch = { ops := ops_ref.usb_mode_switch_ops, ctx := true } :=
  have h := bind_nonfatal_steps lateFailEnv Sys.init rfl rfl (by decide) rfl
  ⟨h.1, h.2.2.1, h.2.2.2.2.1, h.2.1,
    (h.2.2.2.2.2.2.2.1 (boundBus []) (Or.inl (by rw [h.2.1]; simp))).1,
    (h.2.2.2.2.2.2.2.1 (boundBus []) (Or.inl (by rw [h.2.1]; simp))).2⟩

/-! ## Release -/

theorem io_buffer_release_log (s : Sys) (b : io_buffer_t) :
    (io_buffer_release s b).1.log = s.log ++ [Event.io_buffer_release b] := by
  unfold io_buffer_release
  cases b.vmo_handle <;> simp [Sys.record]

theorem io_buffer_release_mapped_sub (s : Sys) (b : io_buffer_t) (x : Region)
    (h : x ∈ (io_buffer_release s b).1.mapped) : x ∈ s.mapped := by
  unfold io_buffer_release at h
  cases hb : b.vmo_handle with
  | none => simpa [hb, Sys.record] using h
  | some r =>
    simp only [hb, Sys.record, List.mem_filter] at h
    exact h.1

theorem io_buffer_release_mapped_gone (s : Sys) (b : io_buffer_t) (r : Region)
    (hb : b.vmo_handle = some r) : r ∉ (io_buffer_release s b).1.mapped := by
  unfold io_buffer_release
  simp [hb, Sys.record, List.mem_filter]

theorem release_gpios_log (s : Sys) (l : List pl061_gpios_t) :
    (release_gpios s l).1.log =
      s.log ++ l.map (fun g => Event.io_buffer_release g.buffer) := by
  induction l generalizing s with
  | nil => simp [release_gpios]
  | cons g rest ih =>
    unfold release_gpios
    rw [ih, io_buffer_release_log]
    simp

theorem release_gpios_rest (s : Sys) (l : List pl061_gpios_t) : (release_gpios s l).2 = [] := by
  induction l generalizing s with
  | nil => rfl
  | cons g rest ih =>
    unfold release_gpios
    exact ih _

theorem release_gpios_mapped_sub (s : Sys) (l : List pl061_gpios_t) (x : Region)
    (h : x ∈ (release_gpios s l).1.mapped) : x ∈ s.mapped := by
  induction l generalizing s with
  | nil => simpa [release_gpios] using h
  | cons g rest ih =>
    unfold release_gpios at h
    exact io_buffer_release_mapped_sub s g.buffer x (ih _ h)

theorem release_gpios_mapped_gone (s : Sys) (l : List pl061_gpios_t) (g : pl061_gpios_t)
    (r : Region) (hg : g ∈ l) (hr : g.buffer.vmo_handle = some r) :
    r ∉ (release_gpios s l).1.mapped := by
  induction l generalizing s with
  | nil => cases hg
  | cons c rest ih =>
    unfold release_gpios
    rcases List.mem_cons.mp hg with rfl | hmem
    · intro hin
      exact io_buffer_release_mapped_gone s g.buffer r hr (release_gpios_mapped_sub _ rest r hin)
    · exact ih _ hmem

theorem hikey960_release_log (s : Sys) (bus : hikey960_t) :
    (hikey960_release s bus).1.log = s.log ++
      (bus.gpios.map (fun g => Event.io_buffer_release g.buffer) ++
        [Event.io_buffer_release bus.usb3otg_bc, Event.io_buffer_release bus.peri_crg,
          Event.io_buffer_release bus.pctrl]) := by
  simp [hikey960_release, io_buffer_release_log, release_gpios_log]

theorem releaseCalls_banks (l : List pl061_gpios_t) (tail : List Event) :
    releaseCalls (l.map (fun g => Event.io_buffer_release g.buffer) ++ tail) =
      l.length + releaseCalls tail := by
  induction l with
  | nil => simp
  | cons g rest ih =>
    show releaseCalls (List.map (fun g => Event.io_buffer_release g.buffer) rest ++ tail) + 1 =
      (rest.length + 1) + releaseCalls tail
    rw [ih]
    omega

theorem unmapped_banks (l : List pl061_gpios_t) (regs : List Region) (tail : List Event)
    (h : l.map (fun g => g.buffer.vmo_handle) = regs.map some) :
    unmapped (l.map (fun g => Event.io_buffer_release g.buffer) ++ tail) =
      regs ++ unmapped tail := by
  induction l generalizing regs with
  | nil =>
    cases regs with
    | nil => rfl
    | cons r rs => simp at h
  | cons g rest ih =>
    cases regs with
    | nil => simp at h
    | cons r rs =>
      simp only [List.map_cons, List.cons.injEq] at h
      obtain ⟨hg, hrest⟩ := h
      have hbuf : g.buffer = { vmo_handle := some r } := by
        cases hb : g.buffer with
        | mk v =>
          rw [hb] at hg
          simp only at hg
          rw [hg]
      show unmapped (Event.io_buffer_release g.buffer ::
        (List.map (fun g => Event.io_buffer_release g.buffer) rest ++ tail)) =
          r :: (rs ++ unmapped tail)
      rw [hbuf]
      show r :: unmapped (List.map (fun g => Event.io_buffer_release g.buffer) rest ++ tail) =
        r :: (rs ++ unmapped tail)
      rw [ih rs hrest]

/-- C8: on a driver instance with `N` registered banks, `hikey960_release`
calls `io_buffer_release` once on the buffer of each registered bank, in list
order, then once on each of `usb3otg_bc`, `peri_crg` and `pctrl`: `N + 3` calls,
and the registry is empty afterwards. When the buffers hold pairwise different
mapped windows (a bound board), the windows unmapped are those `N + 3`, each
exactly once, and none of them is mapped any more. -/
theorem release_releases_all (s : Sys) (bus : hikey960_t) :
    (hikey960_release s bus).1.log.drop s.log.length =
        bus.gpios.map (fun g => Event.io_buffer_release g.buffer) ++
          [Event.io_buffer_release bus.usb3otg_bc, Event.io_buffer_release bus.peri_crg,
            Event.io_buffer_release bus.pctrl] ∧
      releaseCalls ((hikey960_release s bus).1.log.drop s.log.length) = bus.gpios.length + 3 ∧
      (hikey960_release s bus).2.gpios = [] ∧
      (∀ regs : List Region,
        bus.gpios.map (fun g => g.buffer.vmo_handle) = regs.map some →
        bus.usb3otg_bc.vmo_handle = some Region.usb3otg_bc →
        bus.peri_crg.vmo_handle = some Region.peri_crg →
        bus.pctrl.vmo_handle = some Region.pctrl →
        (regs ++ boardRegions).Nodup →
        unmapped ((hikey960_release s bus).1.log.drop s.log.length) = regs ++ boardRegions ∧
        (unmapped ((hikey960_release s bus).1.log.drop s.log.length)).length =
          bus.gpios.length + 3 ∧
        (∀ x ∈ regs ++ boardRegions,
          (unmapped ((hikey960_release s bus).1.log.drop s.log.length)).count x = 1) ∧
        (∀ x ∈ regs ++ boardRegions, x ∉ (hikey960_release s bus).1.mapped)) := by
  rw [hikey960_release_log, drop_new]
  refine ⟨rfl, ?_, ?_, ?_⟩
  · rw [releaseCalls_banks]
    rfl
  · exact release_gpios_rest s bus.gpios
  · intro regs hregs h0 h1 h2 hnodup
    have hb0 : bus.usb3otg_bc = { vmo_handle := some Region.usb3otg_bc } := by
      cases hb : bus.usb3otg_bc with
      | mk v => rw [hb] at h0; simp only at h0; rw [h0]
    have hb1 : bus.peri_crg = { vmo_handle := some Region.peri_crg } := by
      cases hb : bus.peri_crg with
      | mk v => rw [hb] at h1; simp only at h1; rw [h1]
    have hb2 : bus.pctrl = { vmo_handle := some Region.pctrl } := by
      cases hb : bus.pctrl with
      | mk v => rw [hb] at h2; simp only at h2; rw [h2]
    have hun : unmapped (bus.gpios.map (fun g => Event.io_buffer_release g.buffer) ++
        [Event.io_buffer_release bus.usb3otg_bc, Event.io_buffer_release bus.peri_crg,
          Event.io_buffer_release bus.pctrl]) = regs ++ boardRegions := by
      rw [unmapped_banks bus.gpios regs _ hregs, hb0, hb1, hb2]
      rfl
    have hlen : regs.length = bus.gpios.length := by
      have := congrArg List.length hregs
      simpa using this.symm
    rw [hun]
    refine ⟨rfl, ?_, ?_, ?_⟩
    · simp [boardRegions, hlen]
    · intro x hx
      exact List.count_eq_one_of_mem hnodup hx
    · intro x hx hin
      rcases List.mem_append.mp hx with hreg | hboard
      · have hsome : some x ∈ bus.gpios.map (fun g => g.buffer.vmo_handle) := by
          rw [hregs]
          exact List.mem_map_of_mem _ hreg
        obtain ⟨g, hg, hgx⟩ := List.mem_map.mp hsome
        have h3 : x ∈ (release_gpios s bus.gpios).1.mapped := by
          unfold hikey960_release at hin
          exact io_buffer_release_mapped_sub _ _ x
            (io_buffer_release_mapped_sub _ _ x (io_buffer_release_mapped_sub _ _ x hin))
        exact release_gpios_mapped_gone s bus.gpios g x hg hgx h3
      · unfold hikey960_release at hin
        simp only [boardRegions, List.mem_cons, List.mem_singleton, List.not_mem_nil,
          or_false] at hboard
        rcases hboard with rfl | rfl | rfl
        · exact io_buffer_release_mapped_gone _ _ _ h0
            (io_buffer_release_mapped_sub _ _ _ (io_buffer_release_mapped_sub _ _ _ hin))
        · exact io_buffer_release_mapped_gone _ _ _ h1 (io_buffer_release_mapped_sub _ _ _ hin)
        · exact io_buffer_release_mapped_gone _ _ _ h2 hin

/-- C8 on a bound board with three banks: six windows are unmapped, the three
bank windows first, and nothing stays mapped. -/
theorem release_releases_all_witness :
    unmapped ((hikey960_release boundSys (boundBus [bankOf 0, bankOf 1, bankOf 2])).1.log.drop
        boundSys.log.length) =
        [Region.bank 0, Region.bank 1, Region.bank 2] ++ boardRegions ∧
      (unmapped ((hikey960_release boundSys (boundBus [bankOf 0, bankOf 1, bankOf 2])).1.log.drop
        boundSys.log.length)).length = 3 + 3 ∧
      (hikey960_release boundSys (boundBus [bankOf 0, bankOf 1, bankOf 2])).1.mapped = [] ∧
      (hikey960_release Sys.init (boundBus [])).1.log.drop Sys.init.log.length =
        [Event.io_buffer_release { vmo_handle := some Region.usb3otg_bc },
          Event.io_buffer_release { vmo_handle := some Region.peri_crg },
          Event.io_buffer_release { vmo_handle := some Region.pctrl }] ∧
      releaseCalls ((hikey960_release Sys.init (boundBus [bankOf 0])).1.log.drop
        Sys.init.log.length) = 1 + 3 :=
  have h := (release_releases_all boundSys (boundBus [bankOf 0, bankOf 1, bankOf 2])).2.2.2
    [Region.bank 0, Region.bank 1, Region.bank 2] rfl rfl rfl rfl (by decide)
  ⟨h.1, h.2.1, by decide, (release_releases_all Sys.init (boundBus [])).1,
    (release_releases_all Sys.init (boundBus [bankOf 0])).2.1⟩

end Hikey960
